import Mathlib

/-!
Shallow embedding of the queue/customer lifecycle engine of the sqippy
backend (files `app/queue/models.py`, `app/queue/repository.py`,
`app/queue/service.py`, `app/base/repositories.py`), together with proofs
about its operations.

The database session is modelled as an explicit state value (`Db`); the
outcomes of the external notification gateway and of the SMS-quota ledger
are inputs (`NotifyEnv`).  Timestamps are natural numbers.  Python
truthiness of optional string fields (`None` and `""` are falsy) is
modelled by `truthy`, and of the optional integer `max_capacity`
(`None` and `0` are falsy) by `capTruthy`.
-/

namespace Sqippy

/-- `QueueStatus` enum from `app/queue/models.py`. -/
inductive QueueStatus
  | active
  | paused
  | closed
deriving DecidableEq, Repr

/-- `CustomerStatus` enum from `app/queue/models.py`. -/
inductive CustomerStatus
  | waiting
  | in_service
  | completed
  | cancelled
  | no_show
deriving DecidableEq, Repr

/-- Python truthiness of an `Optional[str]` value: `None` and `""` are falsy. -/
def truthy : Option String → Bool
  | none => false
  | some s => s != ""

/-- Python truthiness of the `Optional[int]` column `max_capacity`:
`None` and `0` are falsy. -/
def capTruthy : Option Nat → Bool
  | none => false
  | some n => n != 0

/-- The columns of `Location` needed by the queue engine
(`app/locations/models.py`). -/
structure Location where
  location_id : String
  organization_id : String
deriving DecidableEq, Repr

/-- The columns of `Queue` used by the queue engine (`app/queue/models.py`).
Column defaults: `status = ACTIVE`, `is_active = True`. -/
structure Queue where
  queue_id : String
  name : String
  service_id : Option String
  location_id : String
  status : QueueStatus
  max_capacity : Option Nat
  estimated_service_time : Option Nat
  is_active : Bool
deriving DecidableEq, Repr

/-- The columns of `QueueCustomer` used by the queue engine
(`app/queue/models.py`). -/
structure QueueCustomer where
  queue_customer_id : String
  queue_id : String
  user_id : Option String
  customer_name : Option String
  customer_phone : Option String
  customer_email : Option String
  status : CustomerStatus
  joined_at : Nat
  called_at : Option Nat
  completed_at : Option Nat
deriving DecidableEq, Repr

/-- The relational store: rows of the three tables the engine touches. -/
structure Db where
  queues : List Queue
  customers : List QueueCustomer
  locations : List Location
deriving DecidableEq, Repr

/-- `BaseRepository.get` on the `queues` table: plain primary-key lookup,
with no filter on `is_active` (`app/base/repositories.py`, `get`). -/
def getQueue (db : Db) (id : String) : Option Queue :=
  db.queues.find? (fun q => q.queue_id == id)

/-- `BaseRepository.get` on the `queue_customers` table: plain primary-key
lookup (`app/base/repositories.py`, `get`). -/
def getCustomer (db : Db) (id : String) : Option QueueCustomer :=
  db.customers.find? (fun c => c.queue_customer_id == id)

/-- `QueueCustomerRepository.get_waiting_customers`: the WAITING rows of a
queue (the repository also orders them by `joined_at`; only membership and
length are used below). -/
def waitingCustomers (db : Db) (qid : String) : List QueueCustomer :=
  db.customers.filter
    (fun c => c.queue_id == qid && c.status == CustomerStatus.waiting)

/-- Replace the row with the given primary key by an updated row
(the effect of mutating a mapped object and committing). -/
def replaceCustomer (db : Db) (id : String) (c : QueueCustomer) : Db :=
  { db with
    customers := db.customers.map
      (fun x => if x.queue_customer_id == id then c else x) }

/-- One comparison step of the `ORDER BY joined_at` selection: keep the
strictly earlier of two rows, the incumbent on ties. -/
def earlier (best x : QueueCustomer) : QueueCustomer :=
  if x.joined_at < best.joined_at then x else best

/-- `ORDER BY joined_at` + `.first()`: the row with minimal `joined_at`,
ties resolved to the earliest-listed row (stable sort). -/
def minByJoined : List QueueCustomer → Option QueueCustomer
  | [] => none
  | c :: cs => some (cs.foldl earlier c)

/-- The selection query of `call_next_customer`
(`app/queue/repository.py`, lines 216-225): earliest-joined WAITING
entry of the queue, `None` if the queue has no WAITING entry. -/
def selectNextWaiting (db : Db) (qid : String) : Option QueueCustomer :=
  minByJoined (waitingCustomers db qid)

/-- The scalar query for the owning organization
(`app/queue/repository.py`, lines 231-236): queue → location →
`organization_id`; `None` when the queue or its location row is missing. -/
def organizationId (db : Db) (qid : String) : Option String :=
  match getQueue db qid with
  | none => none
  | some q =>
    (db.locations.find? (fun l => l.location_id == q.location_id)).map
      (fun l => l.organization_id)

/-- Outcomes of the external collaborators during one `call_next_customer`
invocation: the email send, the SMS-quota answer and the SMS send, plus the
wall clock. `Except.error e` covers both a failed result and a raised
exception (both append the same message in the source). -/
structure NotifyEnv where
  emailOutcome : Except String Unit
  canSendSms : Bool
  smsQuotaMessage : String
  smsOutcome : Except String Unit
  now : Nat
deriving Repr

/-- The email attempt of `call_next_customer`
(`app/queue/repository.py`, lines 247-261): attempted only when the
customer's email is truthy; returns the `email_sent` flag and the
collected error strings. -/
def emailAttempt (env : NotifyEnv) (c : QueueCustomer) : Bool × List String :=
  if truthy c.customer_email then
    match env.emailOutcome with
    | Except.ok _ => (true, [])
    | Except.error e => (false, ["Email failed: " ++ e])
  else (false, [])

/-- The SMS attempt of `call_next_customer`
(`app/queue/repository.py`, lines 264-285): attempted only when the
customer's phone AND the resolved organization id are truthy; skipped with
a recorded reason when the quota ledger says no; returns the `sms_sent`
flag and the collected error strings. -/
def smsAttempt (env : NotifyEnv) (c : QueueCustomer) (orgId : Option String) :
    Bool × List String :=
  if truthy c.customer_phone && truthy orgId then
    if env.canSendSms then
      match env.smsOutcome with
      | Except.ok _ => (true, [])
      | Except.error e => (false, ["SMS failed: " ++ e])
    else (false, ["Cannot send SMS: " ++ env.smsQuotaMessage])
  else (false, [])

/-- Python rendering of an `Optional[str]` inside an f-string. -/
def pyShow : Option String → String
  | none => "None"
  | some s => s

/-- The error message of the all-channels-failed branch
(`app/queue/repository.py`, line 301). -/
def failMessage (c : QueueCustomer) (errs : List String) : String :=
  "Failed to notify customer " ++ pyShow c.customer_name ++ ": "
    ++ String.intercalate "; " errs

/-- Result of `call_next_customer`: `None`, the (updated) entry, or the
HTTP 500 raised when every channel failed despite contact info. -/
inductive CallOutcome
  | noCustomer
  | called (c : QueueCustomer)
  | failedNotify (msg : String)
deriving DecidableEq, Repr

/-- `QueueCustomerRepository.call_next_customer`
(`app/queue/repository.py`, lines 214-319).  Selects the earliest WAITING
entry; attempts email and SMS before any mutation; transitions to
IN_SERVICE (setting `called_at`) when a channel succeeded or when the
customer has no contact info at all; raises the 500 with the concatenated
channel errors, leaving the row untouched, otherwise.  (Quota-counter
bookkeeping on success is not modelled; no claim mentions it.) -/
def call_next_customer (db : Db) (env : NotifyEnv) (qid : String) :
    CallOutcome × Db :=
  match selectNextWaiting db qid with
  | none => (CallOutcome.noCustomer, db)
  | some next =>
    let orgId := organizationId db qid
    let email := emailAttempt env next
    let sms := smsAttempt env next orgId
    if !email.1 && !sms.1 then
      if !truthy next.customer_email && !truthy next.customer_phone then
        let next' := { next with
          status := CustomerStatus.in_service, called_at := some env.now }
        (CallOutcome.called next', replaceCustomer db next.queue_customer_id next')
      else
        (CallOutcome.failedNotify (failMessage next (email.2 ++ sms.2)), db)
    else
      let next' := { next with
        status := CustomerStatus.in_service, called_at := some env.now }
      (CallOutcome.called next', replaceCustomer db next.queue_customer_id next')

/-- `QueueCustomerRepository.get_customer_position`
(`app/queue/repository.py`, lines 196-212): `None` unless the entry exists
and is WAITING; otherwise 1 + the count of WAITING rows of the same queue
with strictly earlier `joined_at`. -/
def get_customer_position (db : Db) (qcid : String) : Option Nat :=
  match getCustomer db qcid with
  | none => none
  | some c =>
    if c.status == CustomerStatus.waiting then
      let ahead := (db.customers.filter (fun o =>
        o.queue_id == c.queue_id
          && o.status == CustomerStatus.waiting
          && decide (o.joined_at < c.joined_at))).length
      some (ahead + 1)
    else none

/-- Errors raised by the service layer, tagged with the HTTP status code
used in the source. -/
inductive ApiError
  | notFound (detail : String)
  | badRequest (detail : String)
  | internalError (detail : String)
deriving DecidableEq, Repr

/-- The HTTP status code a service-layer error is raised with. -/
def ApiError.httpStatus : ApiError → Nat
  | ApiError.notFound _ => 404
  | ApiError.badRequest _ => 400
  | ApiError.internalError _ => 500

/-- The fields of `AddCustomerToQueueRequest` used by the add operation
(`app/queue/schemas.py`).  `user_id` is a UUID, truthy iff present;
the string fields follow Python string truthiness. -/
structure AddCustomerRequest where
  user_id : Option String
  customer_name : Option String
  customer_phone : Option String
  customer_email : Option String
deriving DecidableEq, Repr

/-- `QueueService.add_customer_to_queue` (`app/queue/service.py`,
lines 83-158).  Looks the queue up by primary key (no `is_active`
filter), rejects unless `status == ACTIVE`, enforces capacity only when
`max_capacity` is truthy (so `0` disables the check), validates that a
user id or a customer name is supplied, then persists a WAITING entry
with `joined_at = now`.  The best-effort welcome SMS never affects the
result and is not modelled. -/
def add_customer_to_queue (db : Db) (qid : String) (req : AddCustomerRequest)
    (newId : String) (now : Nat) : Except ApiError (QueueCustomer × Db) :=
  match getQueue db qid with
  | none => Except.error (ApiError.notFound "Queue not found")
  | some queue =>
    if queue.status != QueueStatus.active then
      Except.error (ApiError.badRequest "Queue is not accepting new customers")
    else if capTruthy queue.max_capacity
        && decide (queue.max_capacity.getD 0 ≤ (waitingCustomers db qid).length) then
      Except.error (ApiError.badRequest "Queue is at maximum capacity")
    else if !req.user_id.isSome && !truthy req.customer_name then
      Except.error
        (ApiError.badRequest "Either user_id or customer_name must be provided")
    else
      let c : QueueCustomer :=
        { queue_customer_id := newId
          queue_id := qid
          user_id := req.user_id
          customer_name := req.customer_name
          customer_phone := req.customer_phone
          customer_email := req.customer_email
          status := CustomerStatus.waiting
          joined_at := now
          called_at := none
          completed_at := none }
      Except.ok (c, { db with customers := db.customers ++ [c] })

/-- The fields of the `QueueCreate` schema (`app/queue/schemas.py`):
it carries neither `status` nor `is_active`. -/
structure QueueCreate where
  name : String
  service_id : Option String
  location_id : String
  max_capacity : Option Nat
  estimated_service_time : Option Nat
deriving DecidableEq, Repr

/-- `QueueService.create_queue` (`app/queue/service.py`, lines 39-44):
builds a `Queue` from the schema and persists it.  No lookup of the
location or service reference is performed ("For now, we'll assume
location is valid"); `status` and `is_active` take the column defaults
ACTIVE and `True`. -/
def create_queue (db : Db) (qd : QueueCreate) (newId : String) : Queue × Db :=
  let q : Queue :=
    { queue_id := newId
      name := qd.name
      service_id := qd.service_id
      location_id := qd.location_id
      status := QueueStatus.active
      max_capacity := qd.max_capacity
      estimated_service_time := qd.estimated_service_time
      is_active := true }
  (q, { db with queues := db.queues ++ [q] })

/-- `QueueCustomerRepository.complete_customer`
(`app/queue/repository.py`, lines 424-432): `None` unless the entry
exists and is IN_SERVICE; otherwise sets COMPLETED and `completed_at`. -/
def complete_customer_repo (db : Db) (id : String) (now : Nat) :
    Option (QueueCustomer × Db) :=
  match getCustomer db id with
  | none => none
  | some c =>
    if c.status == CustomerStatus.in_service then
      let c' := { c with
        status := CustomerStatus.completed, completed_at := some now }
      some (c', replaceCustomer db id c')
    else none

/-- `QueueCustomerRepository.cancel_customer`
(`app/queue/repository.py`, lines 434-445): `None` unless the entry
exists and is WAITING or IN_SERVICE; otherwise sets CANCELLED and
`completed_at`. -/
def cancel_customer_repo (db : Db) (id : String) (now : Nat) :
    Option (QueueCustomer × Db) :=
  match getCustomer db id with
  | none => none
  | some c =>
    if c.status == CustomerStatus.waiting
        || c.status == CustomerStatus.in_service then
      let c' := { c with
        status := CustomerStatus.cancelled, completed_at := some now }
      some (c', replaceCustomer db id c')
    else none

/-- `QueueService.complete_customer` (`app/queue/service.py`,
lines 260-267): maps the repository's `None` — missing entry or wrong
status alike — to a single HTTP 400. -/
def complete_customer (db : Db) (id : String) (now : Nat) :
    Except ApiError (QueueCustomer × Db) :=
  match complete_customer_repo db id now with
  | some r => Except.ok r
  | none =>
    Except.error (ApiError.badRequest "Customer not found or not in service")

/-- `QueueService.cancel_customer` (`app/queue/service.py`,
lines 269-276): maps the repository's `None` — missing entry or wrong
status alike — to a single HTTP 400. -/
def cancel_customer (db : Db) (id : String) (now : Nat) :
    Except ApiError (QueueCustomer × Db) :=
  match cancel_customer_repo db id now with
  | some r => Except.ok r
  | none =>
    Except.error (ApiError.badRequest "Customer not found or cannot be cancelled")

/-!  ## Helper lemmas  -/

theorem foldl_earlier_mem (cs : List QueueCustomer) (a : QueueCustomer) :
    cs.foldl earlier a = a ∨ cs.foldl earlier a ∈ cs := by
  induction cs generalizing a with
  | nil => exact Or.inl rfl
  | cons x xs ih =>
    rw [List.foldl_cons]
    rcases ih (earlier a x) with h | h
    · rw [h]
      unfold earlier
      by_cases hx : x.joined_at < a.joined_at
      · right
        simp [hx]
      · left
        simp [hx]
    · right
      exact List.mem_cons_of_mem _ h

theorem foldl_earlier_le (cs : List QueueCustomer) (a : QueueCustomer) :
    (cs.foldl earlier a).joined_at ≤ a.joined_at ∧
      ∀ x ∈ cs, (cs.foldl earlier a).joined_at ≤ x.joined_at := by
  induction cs generalizing a with
  | nil =>
    refine ⟨le_refl _, ?_⟩
    intro x hx
    exact absurd hx (List.not_mem_nil x)
  | cons x xs ih =>
    rw [List.foldl_cons]
    obtain ⟨h1, h2⟩ := ih (earlier a x)
    have hle : (earlier a x).joined_at ≤ a.joined_at ∧
        (earlier a x).joined_at ≤ x.joined_at := by
      unfold earlier
      by_cases hx : x.joined_at < a.joined_at
      · simp only [if_pos hx]
        exact ⟨Nat.le_of_lt hx, le_refl _⟩
      · simp only [if_neg hx]
        exact ⟨le_refl _, Nat.le_of_not_lt hx⟩
    refine ⟨le_trans h1 hle.1, ?_⟩
    intro y hy
    rcases List.mem_cons.mp hy with rfl | hy
    · exact le_trans h1 hle.2
    · exact h2 y hy

theorem minByJoined_spec (l : List QueueCustomer) (c : QueueCustomer)
    (h : minByJoined l = some c) :
    c ∈ l ∧ ∀ x ∈ l, c.joined_at ≤ x.joined_at := by
  cases l with
  | nil => exact absurd h (by simp [minByJoined])
  | cons a as =>
    have hc : as.foldl earlier a = c := by
      simpa [minByJoined] using h
    constructor
    · rcases foldl_earlier_mem as a with h1 | h1
      · rw [← hc, h1]
        exact List.mem_cons_self a as
      · rw [← hc]
        exact List.mem_cons_of_mem a h1
    · intro x hx
      obtain ⟨h1, h2⟩ := foldl_earlier_le as a
      rw [← hc]
      rcases List.mem_cons.mp hx with rfl | hx
      · exact h1
      · exact h2 x hx

/-!  ## Concrete fixtures used by witnesses and counterexamples  -/

/-- A location whose organization resolves. -/
def locMain : Location := { location_id := "l1", organization_id := "org1" }

/-- An active, non-deleted queue at `locMain`. -/
def qMain : Queue :=
  { queue_id := "q1"
    name := "Main"
    service_id := some "s1"
    location_id := "l1"
    status := QueueStatus.active
    max_capacity := none
    estimated_service_time := some 5
    is_active := true }

/-- A WAITING customer of `qMain` with full contact info, joined at 3. -/
def cAlice : QueueCustomer :=
  { queue_customer_id := "qcA"
    queue_id := "q1"
    user_id := none
    customer_name := some "Alice"
    customer_phone := some "+31600000001"
    customer_email := some "alice@example.com"
    status := CustomerStatus.waiting
    joined_at := 3
    called_at := none
    completed_at := none }

/-- A WAITING customer of `qMain`, joined later (at 5), listed first. -/
def cBob : QueueCustomer :=
  { cAlice with
    queue_customer_id := "qcB"
    customer_name := some "Bob"
    customer_phone := none
    customer_email := some "bob@example.com"
    joined_at := 5 }

/-- A WAITING customer of `qMain` with no contact info at all. -/
def cGhost : QueueCustomer :=
  { cAlice with
    queue_customer_id := "qcG"
    customer_name := some "Ghost"
    customer_phone := none
    customer_email := none }

/-- A queue whose `location_id` has no matching location row. -/
def qOrphan : Queue :=
  { qMain with queue_id := "q2", location_id := "lMissing" }

/-- A WAITING customer of `qOrphan` whose only contact field is a phone. -/
def cPhoneOnly : QueueCustomer :=
  { cAlice with
    queue_customer_id := "qcP"
    queue_id := "q2"
    customer_name := some "Pat"
    customer_email := none }

/-- `qOrphan` with its single phone-only customer; no location rows. -/
def dbOrphanQueue : Db :=
  { queues := [qOrphan], customers := [cPhoneOnly], locations := [] }

/-- An environment in which both channels fail when attempted. -/
def envAllFail : NotifyEnv :=
  { emailOutcome := Except.error "smtp down"
    canSendSms := true
    smsQuotaMessage := "No SMS credits remaining"
    smsOutcome := Except.error "twilio down"
    now := 42 }

/-- Queue with no customers at all. -/
def dbEmptyQueue : Db :=
  { queues := [qMain], customers := [], locations := [locMain] }

/-- Two WAITING customers, the later joiner listed first. -/
def dbTwoWaiting : Db :=
  { queues := [qMain], customers := [cBob, cAlice], locations := [locMain] }

/-!  ## Claims  -/

/-- C2: `callNextCustomer` selects the WAITING entry of the queue with the
minimum join timestamp; if the queue has no WAITING entry it returns the
"no customer" result (`None`) without raising an error. -/
theorem call_next_selects_earliest (db : Db) (env : NotifyEnv) (qid : String) :
    (waitingCustomers db qid = [] →
      call_next_customer db env qid = (CallOutcome.noCustomer, db)) ∧
    ∀ c, selectNextWaiting db qid = some c →
      c ∈ waitingCustomers db qid ∧
        ∀ x ∈ waitingCustomers db qid, c.joined_at ≤ x.joined_at := by
  constructor
  · intro h
    unfold call_next_customer selectNextWaiting
    rw [h]
    rfl
  · intro c hc
    exact minByJoined_spec _ _ hc

/-- Witness for C2: on an empty queue the call returns `noCustomer`; on a
queue holding Bob (joined 5, listed first) and Alice (joined 3), the
selected entry Alice is WAITING and joined no later than every WAITING
entry. -/
theorem call_next_selects_earliest_witness :
    call_next_customer dbEmptyQueue envAllFail "q1" =
      (CallOutcome.noCustomer, dbEmptyQueue) ∧
    (cAlice ∈ waitingCustomers dbTwoWaiting "q1" ∧
      ∀ x ∈ waitingCustomers dbTwoWaiting "q1", cAlice.joined_at ≤ x.joined_at) :=
  ⟨(call_next_selects_earliest dbEmptyQueue envAllFail "q1").1 (by decide),
   (call_next_selects_earliest dbTwoWaiting envAllFail "q1").2 cAlice (by decide)⟩

/-- C4: for an existing entry, `getPosition` returns 1 plus the number of
WAITING entries of the same queue with strictly earlier join timestamp
when the entry is WAITING, and `None` for every other status. -/
theorem get_position_spec (db : Db) (qcid : String) (c : QueueCustomer)
    (hc : getCustomer db qcid = some c) :
    (c.status = CustomerStatus.waiting →
      get_customer_position db qcid =
        some (1 + db.customers.countP (fun o =>
          o.queue_id == c.queue_id && o.status == CustomerStatus.waiting
            && decide (o.joined_at < c.joined_at)))) ∧
    (c.status ≠ CustomerStatus.waiting →
      get_customer_position db qcid = none) := by
  constructor
  · intro hw
    unfold get_customer_position
    rw [hc]
    simp [hw, List.countP_eq_length_filter, Nat.add_comm]
  · intro hw
    unfold get_customer_position
    rw [hc]
    simp [hw]

/-- Witness for C4: Alice (WAITING, joined 3, Bob joined 5 listed first)
has position 1; a COMPLETED copy of Alice has no position. -/
theorem get_position_spec_witness :
    get_customer_position dbTwoWaiting "qcA" =
      some (1 + dbTwoWaiting.customers.countP (fun o =>
        o.queue_id == cAlice.queue_id && o.status == CustomerStatus.waiting
          && decide (o.joined_at < cAlice.joined_at))) ∧
    get_customer_position
      { dbTwoWaiting with
        customers := [{ cAlice with status := CustomerStatus.completed }] }
      "qcA" = none :=
  ⟨(get_position_spec dbTwoWaiting "qcA" cAlice (by decide)).1 (by decide),
   (get_position_spec
      { dbTwoWaiting with
        customers := [{ cAlice with status := CustomerStatus.completed }] }
      "qcA" { cAlice with status := CustomerStatus.completed } (by decide)).2
      (by decide)⟩

/-- C1: when the selected WAITING entry has a contact field and no
attempted channel succeeded, `callNextCustomer` raises the 500 whose
message concatenates the per-channel failure reasons, and the database —
hence the entry's WAITING status and its `called_at` — is unchanged. -/
theorem call_next_all_channels_failed (db : Db) (env : NotifyEnv)
    (qid : String) (c : QueueCustomer)
    (hsel : selectNextWaiting db qid = some c)
    (hcontact : (truthy c.customer_email || truthy c.customer_phone) = true)
    (he : (emailAttempt env c).1 = false)
    (hs : (smsAttempt env c (organizationId db qid)).1 = false) :
    call_next_customer db env qid =
      (CallOutcome.failedNotify
        (failMessage c
          ((emailAttempt env c).2 ++ (smsAttempt env c (organizationId db qid)).2)),
       db) := by
  have h2 : (!truthy c.customer_email && !truthy c.customer_phone) = false := by
    rw [← Bool.not_or, hcontact]
    rfl
  simp [call_next_customer, hsel, he, hs, h2]

/-- Witness for C1: Alice has both email and phone on file, the quota
ledger allows SMS, and both sends fail; the call raises the concatenated
message and leaves the database unchanged. -/
theorem call_next_all_channels_failed_witness :
    call_next_customer dbTwoWaiting envAllFail "q1" =
      (CallOutcome.failedNotify
        (failMessage cAlice
          ((emailAttempt envAllFail cAlice).2
            ++ (smsAttempt envAllFail cAlice (organizationId dbTwoWaiting "q1")).2)),
       dbTwoWaiting) :=
  call_next_all_channels_failed dbTwoWaiting envAllFail "q1" cAlice
    (by decide) (by decide) (by decide) (by decide)

/-- C3: when the selected WAITING entry has neither a (truthy) email nor
phone on file, `callNextCustomer` transitions it to IN_SERVICE and sets
its `called_at`, even though no channel succeeded. -/
theorem call_next_no_contact_in_service (db : Db) (env : NotifyEnv)
    (qid : String) (c : QueueCustomer)
    (hsel : selectNextWaiting db qid = some c)
    (he : truthy c.customer_email = false)
    (hp : truthy c.customer_phone = false) :
    call_next_customer db env qid =
      (CallOutcome.called
        { c with status := CustomerStatus.in_service, called_at := some env.now },
       replaceCustomer db c.queue_customer_id
        { c with status := CustomerStatus.in_service, called_at := some env.now }) := by
  have he' : emailAttempt env c = (false, []) := by
    simp [emailAttempt, he]
  have hs' : smsAttempt env c (organizationId db qid) = (false, []) := by
    simp [smsAttempt, hp]
  simp [call_next_customer, hsel, he', hs', he, hp]

/-- Witness for C3: a queue whose only WAITING customer has no contact
info; the call transitions them to IN_SERVICE with `called_at = 42`. -/
theorem call_next_no_contact_in_service_witness :
    call_next_customer
        { queues := [qMain], customers := [cGhost], locations := [locMain] }
        envAllFail "q1" =
      (CallOutcome.called
        { cGhost with status := CustomerStatus.in_service, called_at := some 42 },
       replaceCustomer
        { queues := [qMain], customers := [cGhost], locations := [locMain] }
        cGhost.queue_customer_id
        { cGhost with status := CustomerStatus.in_service, called_at := some 42 }) :=
  call_next_no_contact_in_service
    { queues := [qMain], customers := [cGhost], locations := [locMain] }
    envAllFail "q1" cGhost (by decide) (by decide) (by decide)

/-- C10: for a selected WAITING entry whose only contact field is a phone
number, if the organization id does not resolve then no channel is
attempted and no skip reason is recorded, so `callNextCustomer` raises the
all-channels-failed 500 whose message carries an empty reason list, and
the database is unchanged. -/
theorem call_next_org_unresolved (db : Db) (env : NotifyEnv)
    (qid : String) (c : QueueCustomer)
    (hsel : selectNextWaiting db qid = some c)
    (hp : truthy c.customer_phone = true)
    (he : truthy c.customer_email = false)
    (horg : organizationId db qid = none) :
    emailAttempt env c = (false, []) ∧
    smsAttempt env c (organizationId db qid) = (false, []) ∧
    call_next_customer db env qid =
      (CallOutcome.failedNotify (failMessage c []), db) := by
  have he' : emailAttempt env c = (false, []) := by
    simp [emailAttempt, he]
  have hs' : smsAttempt env c (organizationId db qid) = (false, []) := by
    simp [smsAttempt, horg, truthy]
  refine ⟨he', hs', ?_⟩
  simp [call_next_customer, hsel, he', hs', he, hp]

/-- Witness for C10: a queue whose location row is missing, with one
phone-only WAITING customer; the call raises the 500 with an empty reason
list and changes nothing. -/
theorem call_next_org_unresolved_witness :
    emailAttempt envAllFail cPhoneOnly = (false, []) ∧
    smsAttempt envAllFail cPhoneOnly (organizationId dbOrphanQueue "q2") = (false, []) ∧
    call_next_customer dbOrphanQueue envAllFail "q2" =
      (CallOutcome.failedNotify (failMessage cPhoneOnly []), dbOrphanQueue) :=
  call_next_org_unresolved dbOrphanQueue envAllFail "q2" cPhoneOnly
    (by decide) (by decide) (by decide) (by decide)

/-- A soft-deleted queue (`is_active = false`) whose status is ACTIVE. -/
def qSoftDeleted : Queue :=
  { qMain with queue_id := "q3", is_active := false }

/-- A paused queue. -/
def qPaused : Queue :=
  { qMain with queue_id := "q4", status := QueueStatus.paused }

/-- A queue whose `max_capacity` is set to `0`. -/
def qCapZero : Queue :=
  { qMain with queue_id := "q5", max_capacity := some 0 }

/-- A queue whose `max_capacity` is set to `1`. -/
def qCapOne : Queue :=
  { qMain with queue_id := "q6", max_capacity := some 1 }

/-- An add request carrying only a customer name. -/
def reqCarol : AddCustomerRequest :=
  { user_id := none
    customer_name := some "Carol"
    customer_phone := none
    customer_email := none }

/-- C5 counterexample: the soft-deleted queue `q3` has `is_active = false`
and status ACTIVE, yet `addCustomerToQueue` accepts the new entry instead
of failing with a conflict. -/
theorem add_to_soft_deleted_queue_accepted :
    qSoftDeleted.is_active = false ∧
    qSoftDeleted.status = QueueStatus.active ∧
    (add_customer_to_queue
      { queues := [qSoftDeleted], customers := [], locations := [locMain] }
      "q3" reqCarol "qcC" 10).isOk = true := by
  decide

/-- C5 (amended): a new customer entry is accepted only when the queue's
lifecycle status is ACTIVE — the soft-delete `is_active` flag is never
consulted; when the status is not ACTIVE the add fails with the 400
Conflict and no entry is created. -/
theorem add_requires_active_status (db : Db) (qid : String)
    (req : AddCustomerRequest) (newId : String) (now : Nat) (q : Queue)
    (hq : getQueue db qid = some q) :
    (q.status ≠ QueueStatus.active →
      add_customer_to_queue db qid req newId now =
        Except.error (ApiError.badRequest "Queue is not accepting new customers")) ∧
    ((add_customer_to_queue db qid req newId now).isOk = true →
      q.status = QueueStatus.active) := by
  have hrej : q.status ≠ QueueStatus.active →
      add_customer_to_queue db qid req newId now =
        Except.error (ApiError.badRequest "Queue is not accepting new customers") := by
    intro hst
    unfold add_customer_to_queue
    rw [hq]
    simp [hst]
  refine ⟨hrej, ?_⟩
  intro hok
  by_contra hst
  rw [hrej hst] at hok
  exact absurd hok (by simp [Except.isOk, Except.toBool])

/-- Witness for C5 (amended): the paused queue `q4` rejects the add with
the conflict error; an accepted add on `q1` implies its status is
ACTIVE. -/
theorem add_requires_active_status_witness :
    add_customer_to_queue
        { queues := [qPaused], customers := [], locations := [locMain] }
        "q4" reqCarol "qcC" 10 =
      Except.error (ApiError.badRequest "Queue is not accepting new customers") ∧
    qMain.status = QueueStatus.active :=
  ⟨(add_requires_active_status
      { queues := [qPaused], customers := [], locations := [locMain] }
      "q4" reqCarol "qcC" 10 qPaused (by decide)).1 (by decide),
   (add_requires_active_status dbEmptyQueue "q1" reqCarol "qcC" 10 qMain
      (by decide)).2 (by decide)⟩

/-- C6 counterexample: queue `q5` has `max_capacity = 0` and its WAITING
count (0) is ≥ the capacity, yet `addCustomerToQueue` accepts the entry:
a capacity of 0 is falsy in Python and disables the check entirely. -/
theorem add_capacity_zero_accepted :
    qCapZero.max_capacity = some 0 ∧
    (waitingCustomers
      { queues := [qCapZero], customers := [], locations := [locMain] }
      "q5").length = 0 ∧
    (add_customer_to_queue
      { queues := [qCapZero], customers := [], locations := [locMain] }
      "q5" reqCarol "qcC" 10).isOk = true := by
  decide

/-- C6 (amended): for a queue whose `max_capacity` is set to a positive
value, `addCustomerToQueue` fails with the 400 capacity Conflict — and so
creates no entry — whenever the WAITING count is ≥ the capacity; a
capacity of 0 is treated as unset and enforces no limit. -/
theorem add_at_capacity_conflict (db : Db) (qid : String)
    (req : AddCustomerRequest) (newId : String) (now : Nat) (q : Queue)
    (cap : Nat) (hq : getQueue db qid = some q)
    (hst : q.status = QueueStatus.active)
    (hcap : q.max_capacity = some cap) (hpos : 0 < cap)
    (hfull : cap ≤ (waitingCustomers db qid).length) :
    add_customer_to_queue db qid req newId now =
      Except.error (ApiError.badRequest "Queue is at maximum capacity") := by
  unfold add_customer_to_queue
  rw [hq]
  have h1 : (q.status != QueueStatus.active) = false := by
    simp [hst]
  have h2 : capTruthy q.max_capacity = true := by
    rw [hcap]
    simp [capTruthy]
    omega
  have h3 : q.max_capacity.getD 0 ≤ (waitingCustomers db qid).length := by
    rw [hcap]
    simpa using hfull
  simp [h1, h2, h3]

/-- Witness for C6 (amended): queue `q6` with capacity 1 and one WAITING
customer rejects a further add with the capacity conflict. -/
theorem add_at_capacity_conflict_witness :
    add_customer_to_queue
        { queues := [qCapOne]
          customers := [{ cAlice with queue_id := "q6" }]
          locations := [locMain] }
        "q6" reqCarol "qcC" 10 =
      Except.error (ApiError.badRequest "Queue is at maximum capacity") :=
  add_at_capacity_conflict
    { queues := [qCapOne]
      customers := [{ cAlice with queue_id := "q6" }]
      locations := [locMain] }
    "q6" reqCarol "qcC" 10 qCapOne 1
    (by decide) (by decide) (by decide) (by decide) (by decide)

/-- An IN_SERVICE customer of `qMain`. -/
def cServing : QueueCustomer :=
  { cAlice with
    queue_customer_id := "sv"
    customer_name := some "Serge"
    status := CustomerStatus.in_service
    called_at := some 4 }

/-- A COMPLETED customer of `qMain`. -/
def cDone : QueueCustomer :=
  { cAlice with
    queue_customer_id := "dn"
    customer_name := some "Dina"
    status := CustomerStatus.completed
    called_at := some 4
    completed_at := some 6 }

/-- A NO_SHOW customer of `qMain`. -/
def cNoShow : QueueCustomer :=
  { cAlice with
    queue_customer_id := "ns"
    customer_name := some "Nader"
    status := CustomerStatus.no_show
    called_at := some 4 }

/-- Customers of `qMain` in four distinct statuses. -/
def dbFourStatuses : Db :=
  { queues := [qMain]
    customers := [cAlice, cServing, cDone, cNoShow]
    locations := [locMain] }

/-- C7: `completeCustomer` succeeds (COMPLETED, `completed_at` set) only
from IN_SERVICE and fails with the 400 Conflict from every other status,
WAITING included; `cancelCustomer` succeeds (CANCELLED, `completed_at`
set) only from WAITING or IN_SERVICE and fails with the 400 Conflict from
the terminal statuses; neither operation moves an entry backward. -/
theorem transition_guards (db : Db) (id : String) (now : Nat)
    (c : QueueCustomer) (hc : getCustomer db id = some c) :
    (c.status = CustomerStatus.in_service →
      complete_customer db id now =
        Except.ok
          ({ c with status := CustomerStatus.completed, completed_at := some now },
           replaceCustomer db id
             { c with status := CustomerStatus.completed, completed_at := some now })) ∧
    (c.status ≠ CustomerStatus.in_service →
      complete_customer db id now =
        Except.error (ApiError.badRequest "Customer not found or not in service")) ∧
    (c.status = CustomerStatus.waiting ∨ c.status = CustomerStatus.in_service →
      cancel_customer db id now =
        Except.ok
          ({ c with status := CustomerStatus.cancelled, completed_at := some now },
           replaceCustomer db id
             { c with status := CustomerStatus.cancelled, completed_at := some now })) ∧
    (c.status = CustomerStatus.completed ∨ c.status = CustomerStatus.cancelled ∨
        c.status = CustomerStatus.no_show →
      cancel_customer db id now =
        Except.error (ApiError.badRequest "Customer not found or cannot be cancelled")) := by
  refine ⟨?_, ?_, ?_, ?_⟩
  · intro hst
    simp [complete_customer, complete_customer_repo, hc, hst]
  · intro hst
    simp [complete_customer, complete_customer_repo, hc, hst]
  · intro hst
    rcases hst with hst | hst <;>
      simp [cancel_customer, cancel_customer_repo, hc, hst]
  · intro hst
    have hw : c.status ≠ CustomerStatus.waiting := by
      rcases hst with h | h | h <;> simp [h]
    have hi : c.status ≠ CustomerStatus.in_service := by
      rcases hst with h | h | h <;> simp [h]
    simp [cancel_customer, cancel_customer_repo, hc, hw, hi]

/-- Witness for C7: on the four-customer database, completing the
IN_SERVICE entry succeeds, completing the WAITING entry fails, cancelling
the WAITING entry succeeds, and cancelling the COMPLETED entry fails. -/
theorem transition_guards_witness :
    complete_customer dbFourStatuses "sv" 9 =
      Except.ok
        ({ cServing with status := CustomerStatus.completed, completed_at := some 9 },
         replaceCustomer dbFourStatuses "sv"
           { cServing with status := CustomerStatus.completed, completed_at := some 9 }) ∧
    complete_customer dbFourStatuses "qcA" 9 =
      Except.error (ApiError.badRequest "Customer not found or not in service") ∧
    cancel_customer dbFourStatuses "qcA" 9 =
      Except.ok
        ({ cAlice with status := CustomerStatus.cancelled, completed_at := some 9 },
         replaceCustomer dbFourStatuses "qcA"
           { cAlice with status := CustomerStatus.cancelled, completed_at := some 9 }) ∧
    cancel_customer dbFourStatuses "dn" 9 =
      Except.error (ApiError.badRequest "Customer not found or cannot be cancelled") :=
  ⟨(transition_guards dbFourStatuses "sv" 9 cServing (by decide)).1 (by decide),
   (transition_guards dbFourStatuses "qcA" 9 cAlice (by decide)).2.1 (by decide),
   (transition_guards dbFourStatuses "qcA" 9 cAlice (by decide)).2.2.1
     (Or.inl (by decide)),
   (transition_guards dbFourStatuses "dn" 9 cDone (by decide)).2.2.2
     (Or.inl (by decide))⟩

/-- A `QueueCreate` payload whose location and service references match no
row at all. -/
def qcDangling : QueueCreate :=
  { name := "Pop-up"
    service_id := some "sMissing"
    location_id := "lMissing"
    max_capacity := none
    estimated_service_time := none }

/-- The empty database. -/
def dbEmpty : Db := { queues := [], customers := [], locations := [] }

/-- C8 counterexample: in the empty database both references of
`qcDangling` are dangling, yet `createQueue` persists the queue instead of
failing with NotFound. -/
theorem create_queue_dangling_persists :
    dbEmpty.locations.find?
        (fun l => l.location_id == qcDangling.location_id) = none ∧
    (create_queue dbEmpty qcDangling "q9").2.queues.length = 1 := by
  decide

/-- C8 (amended): `createQueue` performs no validation of the location or
service reference — it always persists the queue, appending it to the
store with status ACTIVE and active flag true (the column defaults), even
when the references are dangling. -/
theorem create_queue_always_persists (db : Db) (qd : QueueCreate)
    (newId : String) :
    (create_queue db qd newId).1.status = QueueStatus.active ∧
    (create_queue db qd newId).1.is_active = true ∧
    (create_queue db qd newId).2.queues =
      db.queues ++ [(create_queue db qd newId).1] :=
  ⟨rfl, rfl, rfl⟩

/-- C9 counterexample: an unresolved queue-customer id produces the very
same 400 error as a WAITING entry on which `completeCustomer` is a wrong
transition — not a distinguishable 404 NotFound. -/
theorem complete_missing_same_as_conflict :
    getCustomer dbTwoWaiting "ghost" = none ∧
    complete_customer dbTwoWaiting "ghost" 0 =
      Except.error (ApiError.badRequest "Customer not found or not in service") ∧
    complete_customer dbTwoWaiting "qcA" 0 =
      Except.error (ApiError.badRequest "Customer not found or not in service") ∧
    (ApiError.badRequest "Customer not found or not in service").httpStatus = 400 :=
  ⟨rfl, rfl, rfl, rfl⟩

/-- C9 (amended): when the queue-customer id resolves to no entry,
`completeCustomer` and `cancelCustomer` report the same 400 Bad Request
errors that the wrong-status cases report ("Customer not found or not in
service" / "Customer not found or cannot be cancelled"); the not-found
case is not surfaced as a 404. -/
theorem unresolved_id_maps_to_400 (db : Db) (id : String) (now : Nat)
    (h : getCustomer db id = none) :
    (complete_customer db id now =
        Except.error (ApiError.badRequest "Customer not found or not in service") ∧
      (ApiError.badRequest "Customer not found or not in service").httpStatus = 400) ∧
    (cancel_customer db id now =
        Except.error (ApiError.badRequest "Customer not found or cannot be cancelled") ∧
      (ApiError.badRequest "Customer not found or cannot be cancelled").httpStatus = 400) := by
  refine ⟨⟨?_, rfl⟩, ⟨?_, rfl⟩⟩
  · simp [complete_customer, complete_customer_repo, h]
  · simp [cancel_customer, cancel_customer_repo, h]

/-- Witness for C9 (amended): in the empty database both operations on an
unknown id report their 400 errors. -/
theorem unresolved_id_maps_to_400_witness :
    (complete_customer dbEmpty "nobody" 0 =
        Except.error (ApiError.badRequest "Customer not found or not in service") ∧
      (ApiError.badRequest "Customer not found or not in service").httpStatus = 400) ∧
    (cancel_customer dbEmpty "nobody" 0 =
        Except.error (ApiError.badRequest "Customer not found or cannot be cancelled") ∧
      (ApiError.badRequest "Customer not found or cannot be cancelled").httpStatus = 400) :=
  unresolved_id_maps_to_400 dbEmpty "nobody" 0 (by decide)

end Sqippy
